import Mathlib

/-!
Shallow embedding of the issue-tracker client (src/src/App.jsx): the
session/token decoder in AuthProvider, the role-based capability checks in
IssueDetailsPage, the status-field gating in IssueForm, the route guards
PrivateRoute and AdminRoute, and the issue-store operations fetchIssues,
addIssue, updateIssue, deleteIssue and downloadIssuesCsv in IssueProvider.
Roles and statuses are kept as plain strings, as in the JavaScript source.
-/

namespace IssueTracker

/-- Identifier values as the backend delivers them: either a numeric
database key or a string.  `JsId.toStr` models the JavaScript `String(x)`
coercion that the client applies before every identifier comparison. -/
inductive JsId
  | num (n : Int)
  | str (s : String)
deriving DecidableEq

def JsId.toStr : JsId → String
  | .num n => toString n
  | .str s => s

/-- User identity as produced by the session decoder (AuthProvider,
App.jsx:1179-1185).  The role is a plain string, compared against the
literals "customer", "technician", "admin" exactly as the source does. -/
structure User where
  id : JsId
  username : String
  email : String
  phone_number : String
  role : String
deriving DecidableEq

/-- Issue record as held in the client cache.  Absent optional fields are
modelled as the empty string (JavaScript falsy). -/
structure Issue where
  id : JsId
  title : String
  description : String
  location : String
  department : String
  status : String
  userId : JsId
  username : String
  user_email : String
  user_phone_number : String
  createdAt : String
deriving DecidableEq

/-! Capability checks of IssueDetailsPage (App.jsx:648-650, 661, 712-721). -/

/-- App.jsx:648 — `user && String(user.id) === String(issue.userId)`. -/
def isReporter (user : Option User) (issue : Issue) : Bool :=
  match user with
  | some u => u.id.toStr == issue.userId.toStr
  | none => false

/-- App.jsx:649 — `user?.role === "technician"`. -/
def isTechnician (user : Option User) : Bool :=
  match user with
  | some u => u.role == "technician"
  | none => false

/-- App.jsx:650 — `user?.role === "admin"`. -/
def isAdmin (user : Option User) : Bool :=
  match user with
  | some u => u.role == "admin"
  | none => false

/-- App.jsx:661 and 712 — the edit form and the Edit button are rendered
when `isReporter || isTechnician || isAdmin`. -/
def showEditControls (user : Option User) (issue : Issue) : Bool :=
  isReporter user issue || isTechnician user || isAdmin user

/-- App.jsx:717 — the Delete button sits inside the edit-controls block and
is additionally gated by `isReporter || isAdmin`. -/
def showDeleteButton (user : Option User) (issue : Issue) : Bool :=
  showEditControls user issue && (isReporter user issue || isAdmin user)

/-! IssueForm (App.jsx:254-467): form state, the status radio group that is
rendered only for technicians and admins (App.jsx:422-450), and submission
of the form state as the update payload. -/

/-- Form state of IssueForm (App.jsx:265-271). -/
structure FormData where
  title : String
  description : String
  location : String
  department : String
  status : String
deriving DecidableEq

/-- JavaScript `v || fallback` on strings: the fallback is taken exactly
when `v` is empty (falsy). -/
def jsOr (v fallback : String) : String :=
  if v = "" then fallback else v

/-- Form state populated from `initialData` in edit mode
(App.jsx:275-285). -/
def formDataFromIssue (issue : Issue) : FormData :=
  { title := jsOr issue.title ""
    description := jsOr issue.description ""
    location := jsOr issue.location ""
    department := jsOr issue.department ""
    status := jsOr issue.status "OPEN" }

/-- The named input fields of IssueForm. -/
inductive FormField
  | title
  | description
  | location
  | department
  | status
deriving DecidableEq

/-- `handleChange` (App.jsx:287-291): update the named field of the form
state with the incoming value. -/
def FormData.setField (fd : FormData) (f : FormField) (v : String) : FormData :=
  match f with
  | .title => { fd with title := v }
  | .description => { fd with description := v }
  | .location => { fd with location := v }
  | .department => { fd with department := v }
  | .status => { fd with status := v }

/-- App.jsx:422 — the status radio group is rendered exactly when
`isTechnician || isAdmin`. -/
def statusFieldRendered (user : Option User) : Bool :=
  isTechnician user || isAdmin user

/-- Which input fields the form renders for the acting user: title,
location, department and description unconditionally, status only for
technicians and admins (App.jsx:328-450). -/
def fieldRendered (user : Option User) : FormField → Bool
  | .status => statusFieldRendered user
  | _ => true

/-- A change event can only originate from a rendered input, so a sequence
of user edits updates the form state through `handleChange` for rendered
fields only. -/
def applyFormEvents (user : Option User) (fd : FormData)
    (events : List (FormField × String)) : FormData :=
  events.foldl
    (fun acc e => if fieldRendered user e.1 then acc.setField e.1 e.2 else acc) fd

/-- `validateForm` (App.jsx:293-302): title, location and department must be
nonempty after trimming and status must be nonempty. -/
def validateForm (fd : FormData) : Bool :=
  !(fd.title.trim == "") && !(fd.location.trim == "")
    && !(fd.department.trim == "") && !(fd.status == "")

/-! Session/token decoder of AuthProvider (App.jsx:1172-1194).  The
JavaScript pipeline `JSON.parse(atob(token.split(".")[1]))` either throws
(malformed token) or yields a claims object; `StoredToken` records that
outcome. -/

/-- Claims carried by a parseable token payload. -/
structure TokenPayload where
  id : JsId
  username : String
  email : String
  phone_number : String
  role : String
  exp : Int
deriving DecidableEq

/-- Outcome of decoding the stored token string: the payload parse either
throws or produces a claims object. -/
inductive StoredToken
  | malformed
  | parsed (payload : TokenPayload)
deriving DecidableEq

/-- Result of the session-restore effect: the resolved user, if any, and
whether the token is still present in durable storage afterwards. -/
structure SessionInit where
  user : Option User
  tokenRetained : Bool
deriving DecidableEq

/-- App.jsx:1179-1185 — the identity built from a decoded payload. -/
def userFromPayload (p : TokenPayload) : User :=
  { id := p.id
    username := p.username
    email := p.email
    phone_number := p.phone_number
    role := p.role }

/-- App.jsx:1172-1194 — decode the stored token at time `now` (seconds):
on parse failure remove the token; on success keep it and yield the user
exactly when `decoded.exp > now`, otherwise remove it. -/
def decodeSession (tok : StoredToken) (now : Int) : SessionInit :=
  match tok with
  | .malformed => { user := none, tokenRetained := false }
  | .parsed p =>
      if p.exp > now then
        { user := some (userFromPayload p), tokenRetained := true }
      else
        { user := none, tokenRetained := false }

/-! Route guards (App.jsx:174-187). -/

/-- What a guard renders: the loading spinner, a redirect, or the guarded
page itself. -/
inductive RenderResult
  | loadingView
  | redirect (target : String)
  | content
deriving DecidableEq

/-- Auth context visible to the guards: the resolved user and the
in-flight flag of identity resolution. -/
structure AuthState where
  user : Option User
  loading : Bool
deriving DecidableEq

/-- PrivateRoute (App.jsx:174-178). -/
def privateRoute (auth : AuthState) : RenderResult :=
  if auth.loading then .loadingView
  else
    match auth.user with
    | some _ => .content
    | none => .redirect "/login"

/-- AdminRoute (App.jsx:181-187). -/
def adminRoute (auth : AuthState) : RenderResult :=
  if auth.loading then .loadingView
  else
    match auth.user with
    | none => .redirect "/login"
    | some u => if u.role != "admin" then .redirect "/" else .content

/-! Issue store (IssueProvider, App.jsx:1255-1463). -/

/-- Backend base URL (App.jsx:34). -/
def LIVE_BACKEND_URL : String := "https://server-9cdv.onrender.com/"

/-- Provider state: the cached issue list, the loading flag and the error
banner. -/
structure IssueStoreState where
  issues : List Issue
  loading : Bool
  error : Option String
deriving DecidableEq

/-- App.jsx:1290-1293 — `{...issue, id: String(issue.id)}`. -/
def normalizeIssue (issue : Issue) : Issue :=
  { issue with id := JsId.str issue.id.toStr }

/-- Possible outcomes of the GET /api/issues request: a parsed body, a
non-OK response with its raw text and status text, or any other thrown
error (network failure, malformed JSON body) with its message. -/
inductive FetchResponse
  | ok (body : List Issue)
  | notOk (errorText : String) (statusText : String)
  | failure (message : String)
deriving DecidableEq

/-- App.jsx:1298-1300 — the banner written by the catch branch of
fetchIssues. -/
def fetchFailureBanner (m : String) : String :=
  "Failed to load issues: " ++ m
    ++ ". Please ensure your backend is running and accessible at "
    ++ LIVE_BACKEND_URL ++ "."

/-- Result of one run of fetchIssues: the provider state afterwards and
whether a network request was issued. -/
structure FetchOutcome where
  state : IssueStoreState
  requested : Bool
deriving DecidableEq

/-- fetchIssues (App.jsx:1261-1303).  With no stored token it clears the
cache and returns without touching the error banner and without a network
request.  Otherwise it requests the list; on OK it replaces the cache
wholesale with the body, every id coerced to a string; on a non-OK or
thrown error it leaves the cache as it was and sets the error banner. -/
def fetchIssues (token : Option String) (resp : FetchResponse)
    (s : IssueStoreState) : FetchOutcome :=
  match token with
  | none => ⟨{ issues := [], loading := false, error := s.error }, false⟩
  | some _ =>
      match resp with
      | .ok body =>
          ⟨{ issues := body.map normalizeIssue, loading := false, error := none },
            true⟩
      | .notOk errorText statusText =>
          ⟨{ issues := s.issues, loading := false,
             error := some (fetchFailureBanner
               ("Failed to fetch issues: " ++ jsOr errorText statusText)) },
            true⟩
      | .failure message =>
          ⟨{ issues := s.issues, loading := false,
             error := some (fetchFailureBanner message) }, true⟩

/-- Structured result returned by the mutating operations:
`{success, error}`. -/
structure OpResult where
  success : Bool
  error : Option String
deriving DecidableEq

/-- Outcome of the POST/PUT/DELETE request of a mutating operation: OK, or
non-OK with the optional `message` field of the parsed error body. -/
inductive MutResponse
  | ok
  | notOk (message : Option String)
deriving DecidableEq

/-- One full run of a mutating operation: the provider state afterwards,
the structured result, whether the mutation request was sent, and whether
the follow-up fetchIssues refresh ran. -/
structure MutationRun where
  state : IssueStoreState
  result : OpResult
  requested : Bool
  refreshed : Bool
deriving DecidableEq

/-- addIssue (App.jsx:1315-1342).  With no authenticated user it throws
before any request, yielding `{success:false, error:"User not
authenticated."}`.  On an OK response it re-fetches the list; on a non-OK
response it returns the server message (or a fallback) and does not
refresh. -/
def addIssue (user : Option User) (token : Option String) (payload : FormData)
    (resp : MutResponse) (fetchResp : FetchResponse)
    (s : IssueStoreState) : MutationRun :=
  match user with
  | none => ⟨s, ⟨false, some "User not authenticated."⟩, false, false⟩
  | some _ =>
      match resp with
      | .ok => ⟨(fetchIssues token fetchResp s).state, ⟨true, none⟩, true, true⟩
      | .notOk message =>
          ⟨s, ⟨false, some (message.getD "Failed to add issue.")⟩, true, false⟩

/-- updateIssue (App.jsx:1344-1370): same shape as addIssue with its own
fallback message. -/
def updateIssue (user : Option User) (token : Option String) (id : String)
    (payload : FormData) (resp : MutResponse) (fetchResp : FetchResponse)
    (s : IssueStoreState) : MutationRun :=
  match user with
  | none => ⟨s, ⟨false, some "User not authenticated."⟩, false, false⟩
  | some _ =>
      match resp with
      | .ok => ⟨(fetchIssues token fetchResp s).state, ⟨true, none⟩, true, true⟩
      | .notOk message =>
          ⟨s, ⟨false, some (message.getD "Failed to update issue.")⟩, true, false⟩

/-- deleteIssue (App.jsx:1372-1393): same shape as addIssue with its own
fallback message. -/
def deleteIssue (user : Option User) (token : Option String) (id : String)
    (resp : MutResponse) (fetchResp : FetchResponse)
    (s : IssueStoreState) : MutationRun :=
  match user with
  | none => ⟨s, ⟨false, some "User not authenticated."⟩, false, false⟩
  | some _ =>
      match resp with
      | .ok => ⟨(fetchIssues token fetchResp s).state, ⟨true, none⟩, true, true⟩
      | .notOk message =>
          ⟨s, ⟨false, some (message.getD "Failed to delete issue.")⟩, true, false⟩

/-- Possible outcomes of the CSV export request (App.jsx:1403-1416): OK, a
non-OK response with raw text and status text, or any other thrown error
with its message. -/
inductive CsvResponse
  | ok
  | notOk (errorText : String) (statusText : String)
  | failure (message : String)
deriving DecidableEq

/-- One run of downloadIssuesCsv: the provider state afterwards, the
structured result, and whether the export request was sent. -/
structure CsvRun where
  state : IssueStoreState
  result : OpResult
  requested : Bool
deriving DecidableEq

/-- downloadIssuesCsv (App.jsx:1395-1437).  With no stored token it returns
a structured error before any request or state change.  Otherwise it sends
the request; on OK it saves the file and clears the loading flag; on a
non-OK or thrown error it clears the loading flag and sets the error
banner.  The cached issue list is never touched. -/
def downloadIssuesCsv (token : Option String) (resp : CsvResponse)
    (s : IssueStoreState) : CsvRun :=
  match token with
  | none => ⟨s, ⟨false, some "No authentication token found."⟩, false⟩
  | some _ =>
      match resp with
      | .ok => ⟨{ s with loading := false }, ⟨true, none⟩, true⟩
      | .notOk errorText statusText =>
          ⟨{ s with
              loading := false,
              error := some ("Failed to download CSV: "
                ++ ("Failed to download CSV: " ++ jsOr errorText statusText)) },
            ⟨false, some ("Failed to download CSV: " ++ jsOr errorText statusText)⟩,
            true⟩
      | .failure message =>
          ⟨{ s with
              loading := false,
              error := some ("Failed to download CSV: " ++ message) },
            ⟨false, some message⟩, true⟩

/-! Theorems for the claims. -/

/-- C1: for every authenticated user and issue, the delete capability is
granted exactly when the user's role is admin or the stringified user id
equals the stringified reporter id; in particular a technician who is not
the reporter is never granted delete. -/
theorem delete_capability_iff (u : User) (issue : Issue) :
    showDeleteButton (some u) issue
      = ((u.role == "admin") || (u.id.toStr == issue.userId.toStr)) := by
  cases hr : (u.id.toStr == issue.userId.toStr)
    <;> cases ht : (u.role == "technician")
    <;> cases ha : (u.role == "admin")
    <;> simp [showDeleteButton, showEditControls, isReporter, isTechnician,
          isAdmin, hr, ht, ha]

/-- C2: for every authenticated user and issue, the edit capability is
granted exactly when the user's role is admin or technician, or the
stringified user id equals the stringified reporter id. -/
theorem edit_capability_iff (u : User) (issue : Issue) :
    showEditControls (some u) issue
      = ((u.role == "admin") || (u.role == "technician")
          || (u.id.toStr == issue.userId.toStr)) := by
  cases hr : (u.id.toStr == issue.userId.toStr)
    <;> cases ht : (u.role == "technician")
    <;> cases ha : (u.role == "admin")
    <;> simp [showEditControls, isReporter, isTechnician, isAdmin, hr, ht, ha]

/-- C5: neither guard redirects while identity resolution is pending (both
render the loading view), and once resolution completes every anonymous
access renders a redirect to the login route. -/
theorem guards_no_redirect_while_pending (auth : AuthState) :
    (auth.loading = true →
      privateRoute auth = RenderResult.loadingView
        ∧ adminRoute auth = RenderResult.loadingView)
    ∧ (auth.loading = false → auth.user = none →
        privateRoute auth = RenderResult.redirect "/login"
          ∧ adminRoute auth = RenderResult.redirect "/login") := by
  obtain ⟨user, loading⟩ := auth
  constructor
  · intro h
    subst h
    exact ⟨rfl, rfl⟩
  · intro h hu
    subst h
    subst hu
    exact ⟨rfl, rfl⟩

/-- C5 witness: the guards at concrete pending and anonymous states. -/
theorem guards_no_redirect_while_pending_witness :
    (privateRoute { user := none, loading := true } = RenderResult.loadingView
      ∧ adminRoute { user := none, loading := true } = RenderResult.loadingView)
    ∧ (privateRoute { user := none, loading := false }
          = RenderResult.redirect "/login"
      ∧ adminRoute { user := none, loading := false }
          = RenderResult.redirect "/login") :=
  ⟨(guards_no_redirect_while_pending { user := none, loading := true }).1 rfl,
    (guards_no_redirect_while_pending { user := none, loading := false }).2 rfl rfl⟩

/-- C9: downloadIssuesCsv never mutates the cached issue list, whatever the
transport outcome. -/
theorem downloadIssuesCsv_preserves_issues (token : Option String)
    (resp : CsvResponse) (s : IssueStoreState) :
    (downloadIssuesCsv token resp s).state.issues = s.issues := by
  cases token <;> cases resp <;> rfl

/-- C10: an authenticated user whose role is not admin is redirected by the
admin guard to the dashboard route, not to login; the admin guard redirects
to login only for anonymous users. -/
theorem adminRoute_non_admin_redirects_to_dashboard (u : User)
    (h : u.role ≠ "admin") :
    adminRoute { user := some u, loading := false } = RenderResult.redirect "/"
      ∧ ∀ auth : AuthState,
          adminRoute auth = RenderResult.redirect "/login" → auth.user = none := by
  constructor
  · simp [adminRoute, h]
  · intro auth hred
    obtain ⟨user, loading⟩ := auth
    cases loading
    · cases user with
      | none => rfl
      | some v =>
          by_cases hv : v.role = "admin" <;> simp [adminRoute, hv] at hred
    · simp [adminRoute] at hred

/-- C10 witness: a concrete technician is redirected to the dashboard. -/
theorem adminRoute_non_admin_redirects_to_dashboard_witness :
    adminRoute
        { user := some
            { id := JsId.num 7, username := "t", email := "t@e", phone_number := "1",
              role := "technician" },
          loading := false }
      = RenderResult.redirect "/" :=
  (adminRoute_non_admin_redirects_to_dashboard
      { id := JsId.num 7, username := "t", email := "t@e", phone_number := "1",
        role := "technician" }
      (by decide)).1

theorem setField_status_of_ne (fd : FormData) (f : FormField) (v : String)
    (h : f ≠ FormField.status) : (fd.setField f v).status = fd.status := by
  cases f <;> first | rfl | exact absurd rfl h

theorem applyFormEvents_status_of_locked (user : Option User)
    (h : statusFieldRendered user = false) :
    ∀ (events : List (FormField × String)) (fd : FormData),
      (applyFormEvents user fd events).status = fd.status := by
  intro events
  induction events with
  | nil => intro fd; rfl
  | cons e es ih =>
      intro fd
      obtain ⟨f, v⟩ := e
      have hstep : applyFormEvents user fd ((f, v) :: es)
          = applyFormEvents user
              (if fieldRendered user f then fd.setField f v else fd) es := rfl
      rw [hstep, ih]
      by_cases hr : fieldRendered user f = true
      · simp only [hr, if_true]
        refine setField_status_of_ne fd f v ?_
        intro hf
        subst hf
        rw [show fieldRendered user FormField.status = statusFieldRendered user
          from rfl, h] at hr
        exact Bool.false_ne_true hr
      · simp [hr]

/-- C3: the status field is rendered (mutable) in the form exactly for
technicians and admins; a customer editing an issue whose status is one of
the three legal values always submits a payload whose status equals the
issue's prior status, whatever change events occur, while title,
description, location and department remain freely editable. -/
theorem customer_edit_preserves_status (u : User) (issue : Issue)
    (events : List (FormField × String))
    (hrole : u.role = "customer")
    (hstatus : issue.status = "OPEN" ∨ issue.status = "IN_PROGRESS"
      ∨ issue.status = "CLOSED") :
    (∀ v : User, statusFieldRendered (some v)
        = ((v.role == "technician") || (v.role == "admin")))
    ∧ (applyFormEvents (some u) (formDataFromIssue issue) events).status
        = issue.status
    ∧ ∀ t dsc loc dep : String,
        applyFormEvents (some u) (formDataFromIssue issue)
            [(FormField.title, t), (FormField.location, loc),
              (FormField.department, dep), (FormField.description, dsc)]
          = { title := t, description := dsc, location := loc,
              department := dep, status := issue.status } := by
  have hne : issue.status ≠ "" := by
    rcases hstatus with h | h | h <;> rw [h] <;> decide
  have hfd : (formDataFromIssue issue).status = issue.status := by
    show (if issue.status = "" then "OPEN" else issue.status) = issue.status
    rw [if_neg hne]
  have hlock : statusFieldRendered (some u) = false := by
    show (u.role == "technician" || u.role == "admin") = false
    rw [hrole]
    decide
  refine ⟨fun v => rfl, ?_, ?_⟩
  · rw [applyFormEvents_status_of_locked (some u) hlock events
      (formDataFromIssue issue), hfd]
  · intro t dsc loc dep
    rw [← hfd]
    rfl

/-- C3 witness: a concrete customer submitting a CLOSED status event on
their own OPEN issue still submits status OPEN. -/
theorem customer_edit_preserves_status_witness :
    (applyFormEvents
        (some { id := JsId.num 42, username := "c", email := "c@e",
                phone_number := "2", role := "customer" })
        (formDataFromIssue
          { id := JsId.num 1, title := "T", description := "", location := "L",
            department := "D", status := "OPEN", userId := JsId.num 42,
            username := "c", user_email := "c@e", user_phone_number := "2",
            createdAt := "2024-01-01" })
        [(FormField.status, "CLOSED")]).status = "OPEN" :=
  (customer_edit_preserves_status
      { id := JsId.num 42, username := "c", email := "c@e",
        phone_number := "2", role := "customer" }
      { id := JsId.num 1, title := "T", description := "", location := "L",
        department := "D", status := "OPEN", userId := JsId.num 42,
        username := "c", user_email := "c@e", user_phone_number := "2",
        createdAt := "2024-01-01" }
      [(FormField.status, "CLOSED")] rfl (Or.inl rfl)).2.1

/-- C4: decoding a stored token yields a resolved identity and retains the
token exactly when the payload parses and its exp is strictly greater than
the current time in seconds, the identity carrying the payload's id,
username, email, phone_number and role; expired or malformed tokens yield
no identity and are removed from storage. -/
theorem decodeSession_spec (tok : StoredToken) (now : Int) :
    (((decodeSession tok now).user.isSome = true
        ∧ (decodeSession tok now).tokenRetained = true)
      ↔ ∃ p, tok = StoredToken.parsed p ∧ p.exp > now)
    ∧ (∀ p, tok = StoredToken.parsed p → p.exp > now →
        (decodeSession tok now).user
          = some { id := p.id, username := p.username, email := p.email,
                   phone_number := p.phone_number, role := p.role })
    ∧ (tok = StoredToken.malformed →
        (decodeSession tok now).user = none
          ∧ (decodeSession tok now).tokenRetained = false)
    ∧ ∀ p, tok = StoredToken.parsed p → p.exp ≤ now →
        (decodeSession tok now).user = none
          ∧ (decodeSession tok now).tokenRetained = false := by
  refine ⟨?_, ?_, ?_, ?_⟩
  · cases tok with
    | malformed => simp [decodeSession]
    | parsed p =>
        by_cases h : p.exp > now <;> simp [decodeSession, h]
  · intro p hp hexp
    subst hp
    simp [decodeSession, hexp, userFromPayload]
  · intro h
    subst h
    exact ⟨rfl, rfl⟩
  · intro p hp hle
    subst hp
    have hgt : ¬ p.exp > now := not_lt.mpr hle
    simp [decodeSession, hgt]

/-- C4 witness: a well-formed unexpired token resolves to its embedded
identity. -/
theorem decodeSession_spec_witness :
    (decodeSession (StoredToken.parsed
        { id := JsId.num 5, username := "a", email := "a@e", phone_number := "3",
          role := "admin", exp := 100 }) 50).user
      = some { id := JsId.num 5, username := "a", email := "a@e",
               phone_number := "3", role := "admin" } :=
  (decodeSession_spec (StoredToken.parsed
      { id := JsId.num 5, username := "a", email := "a@e", phone_number := "3",
        role := "admin", exp := 100 }) 50).2.1
    { id := JsId.num 5, username := "a", email := "a@e", phone_number := "3",
      role := "admin", exp := 100 } rfl (by decide)

/-- C6 counterexample: fetchIssues invoked with no stored token performs no
network request and reports no error at all (the error channel stays
empty), so list() without a session does not fail with a
NotAuthenticated-style structured error as the claim states. -/
theorem fetchIssues_no_token_counterexample :
    (fetchIssues none (FetchResponse.ok [])
        { issues := [], loading := true, error := none }).requested = false
    ∧ (fetchIssues none (FetchResponse.ok [])
        { issues := [], loading := true, error := none }).state.error = none :=
  ⟨rfl, rfl⟩

/-- C6 amended: addIssue, updateIssue, deleteIssue and downloadIssuesCsv
each fail with a structured not-authenticated error and perform no network
request when invoked without a session; fetchIssues without a session
performs no network request but silently clears the cache without
reporting any error. -/
theorem ops_require_session_amended (token : Option String)
    (payload : FormData) (id : String) (resp : MutResponse)
    (csvResp : CsvResponse) (fetchResp : FetchResponse)
    (s : IssueStoreState) :
    addIssue none token payload resp fetchResp s
        = ⟨s, ⟨false, some "User not authenticated."⟩, false, false⟩
    ∧ updateIssue none token id payload resp fetchResp s
        = ⟨s, ⟨false, some "User not authenticated."⟩, false, false⟩
    ∧ deleteIssue none token id resp fetchResp s
        = ⟨s, ⟨false, some "User not authenticated."⟩, false, false⟩
    ∧ downloadIssuesCsv none csvResp s
        = ⟨s, ⟨false, some "No authentication token found."⟩, false⟩
    ∧ fetchIssues none fetchResp s
        = ⟨{ issues := [], loading := false, error := s.error }, false⟩ :=
  ⟨rfl, rfl, rfl, rfl, rfl⟩

theorem countP_map_normalizeIssue (body : List Issue) (nid : String) :
    ((body.map normalizeIssue).countP (fun i => i.id.toStr == nid))
      = body.countP (fun i => i.id.toStr == nid) := by
  induction body with
  | nil => rfl
  | cons a l ih =>
      simp only [List.map_cons, List.countP_cons, ih,
        show (normalizeIssue a).id.toStr = a.id.toStr from rfl]

/-- C7: a successful list() replaces the cache wholesale with the server
body, every identifier coerced to string form, independently of the prior
cache contents; hence when the server body carries the newly created
issue's id exactly once, the refreshed cache carries it exactly once. -/
theorem list_refresh_no_duplicates (token : String) (body : List Issue)
    (s1 s2 : IssueStoreState) (newId : String)
    (hcount : body.countP (fun i => i.id.toStr == newId) = 1) :
    (fetchIssues (some token) (FetchResponse.ok body) s1).state.issues
        = body.map normalizeIssue
    ∧ (∀ i ∈ (fetchIssues (some token) (FetchResponse.ok body) s1).state.issues,
        i.id = JsId.str i.id.toStr)
    ∧ (fetchIssues (some token) (FetchResponse.ok body) s2).state.issues
        = (fetchIssues (some token) (FetchResponse.ok body) s1).state.issues
    ∧ (fetchIssues (some token) (FetchResponse.ok body) s1).state.issues.countP
        (fun i => i.id.toStr == newId) = 1 := by
  refine ⟨rfl, ?_, rfl, ?_⟩
  · intro i hi
    have hi2 : i ∈ body.map normalizeIssue := hi
    obtain ⟨j, hj, hji⟩ := List.mem_map.mp hi2
    rw [← hji]
    rfl
  · show (body.map normalizeIssue).countP (fun i => i.id.toStr == newId) = 1
    rw [countP_map_normalizeIssue]
    exact hcount

/-- C7 witness: one concrete refresh carrying a single freshly created
issue with numeric backend id 9 leaves exactly one cached record with
string id "9". -/
theorem list_refresh_no_duplicates_witness :
    (fetchIssues (some "tk") (FetchResponse.ok
        [{ id := JsId.num 9, title := "T", description := "", location := "L",
           department := "D", status := "OPEN", userId := JsId.num 42,
           username := "c", user_email := "c@e", user_phone_number := "2",
           createdAt := "2024-01-01" }])
        { issues := [], loading := false, error := none }).state.issues.countP
      (fun i => i.id.toStr == "9") = 1 :=
  (list_refresh_no_duplicates "tk"
      [{ id := JsId.num 9, title := "T", description := "", location := "L",
         department := "D", status := "OPEN", userId := JsId.num 42,
         username := "c", user_email := "c@e", user_phone_number := "2",
         createdAt := "2024-01-01" }]
      { issues := [], loading := false, error := none }
      { issues := [], loading := false, error := none } "9"
      (by decide)).2.2.2

/-- C8: for addIssue, updateIssue and deleteIssue with an authenticated
user, an OK response yields success together with a full list() refresh of
the cache (in particular, the cache afterwards is exactly the refreshed
server list, with no optimistic local patch), and a non-OK response yields
the server-reported message (or the operation's fallback) as a failure
with the cache untouched and no refresh. -/
theorem mutation_refresh_policy (u : User) (token : Option String)
    (payload : FormData) (id : String) (m : Option String)
    (fetchResp : FetchResponse) (s : IssueStoreState) :
    addIssue (some u) token payload MutResponse.ok fetchResp s
        = ⟨(fetchIssues token fetchResp s).state, ⟨true, none⟩, true, true⟩
    ∧ addIssue (some u) token payload (MutResponse.notOk m) fetchResp s
        = ⟨s, ⟨false, some (m.getD "Failed to add issue.")⟩, true, false⟩
    ∧ updateIssue (some u) token id payload MutResponse.ok fetchResp s
        = ⟨(fetchIssues token fetchResp s).state, ⟨true, none⟩, true, true⟩
    ∧ updateIssue (some u) token id payload (MutResponse.notOk m) fetchResp s
        = ⟨s, ⟨false, some (m.getD "Failed to update issue.")⟩, true, false⟩
    ∧ deleteIssue (some u) token id MutResponse.ok fetchResp s
        = ⟨(fetchIssues token fetchResp s).state, ⟨true, none⟩, true, true⟩
    ∧ deleteIssue (some u) token id (MutResponse.notOk m) fetchResp s
        = ⟨s, ⟨false, some (m.getD "Failed to delete issue.")⟩, true, false⟩
    ∧ ∀ (tk : String) (body : List Issue),
        (addIssue (some u) (some tk) payload MutResponse.ok
            (FetchResponse.ok body) s).state.issues = body.map normalizeIssue :=
  ⟨rfl, rfl, rfl, rfl, rfl, rfl, fun tk body => rfl⟩

end IssueTracker
